import Mathlib

/-!
Verification development for the SeniorAssist backend conversation engine
(`backend/services/orchestrator.py` and `backend/repositories/repository.py`).

The Python code is shallowly embedded: every definition below translates a
function or a code path of the source.  Floating-point confidences become `ℚ`,
`datetime` timestamps become integer seconds, UUID row ids become `Nat`s drawn
from a per-database counter, and the SQL tables become Lean lists kept in
creation order (so `ORDER BY created_at DESC` is list reversal, because every
row is appended with a strictly larger `created_at`).
-/

namespace SeniorAssist

/-! ## Python string primitives used by the orchestrator -/

/-- Python's substring test `needle in hay` on the character lists of the two
strings. -/
def hasSubstr (needle : List Char) : List Char → Bool
  | [] => needle.isEmpty
  | c :: cs => needle.isPrefixOf (c :: cs) || hasSubstr needle cs

/-- Python `needle in hay` for strings. -/
def pyIn (needle hay : String) : Bool :=
  hasSubstr needle.data hay.data

/-- Python `str.lower()` (character-wise lowering; the texts handled by the
service are Spanish words where this agrees with Python). -/
def pyLower (s : String) : String :=
  String.mk (s.data.map Char.toLower)

/-- Whitespace in the sense of Python `str.strip()` / `str.split()`. -/
def pySpace (c : Char) : Bool :=
  c = ' ' || c = '\t' || c = '\n' || c = '\r' || c = '\x0b' || c = '\x0c'

/-- Python `str.strip()`. -/
def pyStrip (s : String) : String :=
  String.mk (((s.data.dropWhile pySpace).reverse.dropWhile pySpace).reverse)

/-- Worker for `pySplit`: the first argument is the reversed current word. -/
def pySplitChars : List Char → List Char → List String
  | acc, [] => if acc.isEmpty then [] else [String.mk acc.reverse]
  | acc, c :: cs =>
      if pySpace c then
        if acc.isEmpty then pySplitChars [] cs
        else String.mk acc.reverse :: pySplitChars [] cs
      else pySplitChars (c :: acc) cs

/-- Python `str.split()` (split on whitespace runs, no empty pieces). -/
def pySplit (s : String) : List String :=
  pySplitChars [] s.data

/-- Truthiness of a Python `Optional[str]` (`None` and `""` are falsy). -/
def optTruthy : Option String → Bool
  | none => false
  | some s => s ≠ ""

/-! ## Module-level constants of `orchestrator.py` -/

/-- `EMERGENCY_LABELS` (a Python set, membership-tested only). -/
def emergencyLabels : List String := ["emergencia_medica", "alerta_medica"]

/-- `RECORDATORIO_KEYWORDS`. -/
def recordatorioKeywords : List String :=
  ["recordatorio", "recordar", "anotar", "cita", "alarma", "recordarme"]

/-- `ACOMP_LABELS`. -/
def acompLabels : List String :=
  ["conversacion_social", "saludo", "despedida", "motivacion_personal",
   "reporte_emocional", "agradecimiento", "no_entendido"]

/-- `CONSULTA_LABELS`. -/
def consultaLabels : List String :=
  ["consulta_informacion", "informacion_personal", "monitoreo_salud",
   "configuracion_asistente", "comando_dispositivo"]

/-- `ALLOWED_FLOWS`. -/
def allowedFlows : List String :=
  ["emergencia", "recordatorio", "acompanamiento_social", "consulta_informacion"]

/-! ## Keyword predicates (`_keyword_recordatorio`, `_is_cancel`, `_is_confirm`) -/

/-- `_keyword_recordatorio(text)`. -/
def keywordRecordatorio (text : String) : Bool :=
  recordatorioKeywords.any (fun k => pyIn k (pyLower text))

/-- The `cancel_words` list of `_is_cancel`. -/
def cancelWords : List String :=
  ["cancelar", "cancela", "olvida", "olvidalo", "anular", "no gracias", "no, gracias"]

/-- `_is_cancel(text)`. -/
def isCancel (text : String) : Bool :=
  cancelWords.any (fun cw => pyIn cw (pyLower text))

/-- The `confirm_words` list of `_is_confirm`. -/
def confirmWords : List String :=
  ["confirmo", "confirma", "confirmar", "si", "sí", "dale", "ok", "okey", "vale", "de acuerdo"]

/-- `_is_confirm(text)` — note it is a plain substring test, so a confirm word
occurring inside a longer word also matches. -/
def isConfirm (text : String) : Bool :=
  confirmWords.any (fun cw => pyIn cw (pyLower text))

/-! ## `_reminder_slots` (including its two regular expressions) -/

/-- A regex word character (`\w`) for the texts this service handles: ASCII
alphanumerics, underscore, and the Spanish accented letters. -/
def isWordChar (c : Char) : Bool :=
  c.isAlphanum || c = '_' ||
    c = 'á' || c = 'é' || c = 'í' || c = 'ó' || c = 'ú' || c = 'ü' || c = 'ñ'

/-- `\b` at the end of a match: the next character is absent or not a word
character. -/
def endBoundary : List Char → Bool
  | [] => true
  | c :: _ => !(isWordChar c)

/-- `\b` before a match: the previous character (if any) is not a word
character. -/
def startBoundary : Option Char → Bool
  | none => true
  | some p => !(isWordChar p)

/-- Match `\d{2}:\d{2}\b` at the head of the list. -/
def timeTwoDigits : List Char → Bool
  | a :: b :: c :: d :: e :: rest =>
      a.isDigit && b.isDigit && c = ':' && d.isDigit && e.isDigit && endBoundary rest
  | _ => false

/-- Match `\d{1}:\d{2}\b` at the head of the list. -/
def timeOneDigit : List Char → Bool
  | a :: c :: d :: e :: rest =>
      a.isDigit && c = ':' && d.isDigit && e.isDigit && endBoundary rest
  | _ => false

/-- `re.search(r"\b\d{1,2}:\d{2}\b", txt)` as a boolean: scan every position
with a word boundary before it and try the two- then one-digit hour form
(the backtracking alternatives of `\d{1,2}`). -/
def searchClockTime : Option Char → List Char → Bool
  | _, [] => false
  | prev, c :: cs =>
      (startBoundary prev && (timeTwoDigits (c :: cs) || timeOneDigit (c :: cs)))
        || searchClockTime (some c) cs

/-- After the digits of `\b\d{1,2}\s*(am|pm)\b`: skip whitespace, then `am` or
`pm` followed by a word boundary. -/
def amPmTail (l : List Char) : Bool :=
  match l.dropWhile pySpace with
  | 'a' :: 'm' :: rest => endBoundary rest
  | 'p' :: 'm' :: rest => endBoundary rest
  | _ => false

/-- Match `\d{1,2}\s*(am|pm)\b` at the head of the list. -/
def amPmHere : List Char → Bool
  | a :: rest =>
      a.isDigit &&
        (amPmTail rest ||
          (match rest with
           | b :: rest2 => b.isDigit && amPmTail rest2
           | [] => false))
  | [] => false

/-- `re.search(r"\b\d{1,2}\s*(am|pm)\b", txt)` as a boolean. -/
def searchAmPm : Option Char → List Char → Bool
  | _, [] => false
  | prev, c :: cs =>
      (startBoundary prev && amPmHere (c :: cs)) || searchAmPm (some c) cs

/-- The two booleans computed by `_reminder_slots`. -/
structure ReminderSlots where
  has_time : Bool
  has_content : Bool
deriving Repr, DecidableEq

/-- `_reminder_slots(text)`: time tokens / clock or am-pm regexes for
`has_time`; at least four non-keyword words for `has_content`. -/
def reminderSlots (text : String) : ReminderSlots :=
  let txt := pyLower text
  let tokenTime :=
    ["manana", "hoy", "tarde", "noche", "am", "pm", "minuto", "hora", "horas"].any
      (fun token => pyIn token txt)
  let hasTime := tokenTime || searchClockTime none txt.data || searchAmPm none txt.data
  let words := (pySplit (String.mk (txt.data.map (fun c => if c = ',' then ' ' else c)))).filter
    (fun w => !(recordatorioKeywords.contains w))
  { has_time := hasTime, has_content := decide (words.length ≥ 4) }

/-! ## Flow decisions -/

/-- The `FlowDecision` dataclass. -/
structure FlowDecision where
  flow : String
  next_prompt : Option String
  reason : String
  source : String
deriving Repr, DecidableEq

/-- The slice of an intent classification result that the orchestrator reads:
`intent.get("label")` and `float(intent.get("score", 0))`.  Confidences are
modelled as rationals. -/
structure IntentResult where
  label : Option String
  score : ℚ
deriving Repr, DecidableEq

/-- `intent.get("label") or "no_entendido"` (Python `or` also replaces an
empty string). -/
def effectiveLabel : Option String → String
  | none => "no_entendido"
  | some s => if s = "" then "no_entendido" else s

/-- The dict returned by `predictors.safety_gate`:
`{"allow": bool, "emergency": bool, "reason": str}` (`cls` is never read by
the orchestrator). -/
structure GateVerdict where
  allow : Bool
  emergency : Bool
  reason : String
deriving Repr, DecidableEq

/-- A named entity as produced by `predict_ner` (`type`/`value`); the
orchestrator only passes the list through. -/
structure Entity where
  kind : String
  value : String
deriving Repr, DecidableEq

/-- `ConversationOrchestrator.decide_flow_local(text, intent, gate, entities)`,
its rules in source order. -/
def decideFlowLocal (text : String) (intent : IntentResult) (gate : GateVerdict)
    (_entities : List Entity) : FlowDecision :=
  let label := effectiveLabel intent.label
  let score := intent.score
  let gateEmergency := gate.emergency
  let hasEmergencyIntent := emergencyLabels.contains label
  let recordatorioByKeyword := keywordRecordatorio text
  if gateEmergency || hasEmergencyIntent then
    { flow := "emergencia"
      next_prompt := some "Emergencia detectada. Llamo a tu contacto de emergencia o a servicios de urgencia?"
      reason := if gateEmergency then "gate_emergency" else "intent_emergency"
      source := "local" }
  else if label = "recordatorio" ∧ score ≥ mkRat 6 10 then
    { flow := "recordatorio"
      next_prompt := some "Entendido. Que debo recordar y a que hora?"
      reason := "intent_recordatorio"
      source := "local" }
  else if recordatorioByKeyword ∧ score < mkRat 7 10 then
    { flow := "recordatorio"
      next_prompt := some "Te ayudo a guardar un recordatorio. Que debo recordar y cuando?"
      reason := "keyword_recordatorio"
      source := "local" }
  else if consultaLabels.contains label then
    { flow := "consulta_informacion"
      next_prompt := some "Claro, dime que informacion necesitas y te apoyo."
      reason := "intent_consulta"
      source := "local" }
  else if acompLabels.contains label then
    { flow := "acompanamiento_social"
      next_prompt := some "Estoy aqui contigo. Quieres contarme mas o necesitas apoyo en algo?"
      reason := "intent_acompanamiento"
      source := "local" }
  else
    { flow := "acompanamiento_social"
      next_prompt := some "Estoy aqui para ayudarte. Como puedo apoyarte?"
      reason := "fallback_acompanamiento"
      source := "local" }

/-- `ConversationOrchestrator.merge_flow_decisions(local, llm, intent_score)`.
The `intent_score` argument is accepted and ignored, as in the source. -/
def mergeFlowDecisions (localDecision : FlowDecision) (llmDecision : Option FlowDecision)
    (_intentScore : ℚ) : FlowDecision :=
  match llmDecision with
  | none => localDecision
  | some llm =>
      let localFlow := localDecision.flow
      let llmFlow := llm.flow
      if localFlow = llmFlow then
        { flow := localFlow
          next_prompt := localDecision.next_prompt
          reason := localDecision.reason ++ "+llm_validated"
          source := "hybrid+validated" }
      else if localFlow = "emergencia" ∨ llmFlow = "emergencia" then
        { flow := "emergencia"
          -- `llm_decision.next_prompt or local_decision.next_prompt`: Python `or`
          -- falls through on `None` and on the empty string.
          next_prompt := if optTruthy llm.next_prompt then llm.next_prompt
                         else localDecision.next_prompt
          reason := "emergencia_" ++ (if llmFlow = "emergencia" then llmFlow else "local")
          source := "hybrid+safety" }
      else if localFlow = "recordatorio" ∨ llmFlow = "recordatorio" then
        { flow := "recordatorio"
          next_prompt := if optTruthy llm.next_prompt then llm.next_prompt
                         else localDecision.next_prompt
          reason := "recordatorio_" ++ (if llmFlow = "recordatorio" then llmFlow else "local")
          source := "hybrid+preservation" }
      else
        { flow := llmFlow
          next_prompt := llm.next_prompt
          reason := "llm_corrected_local (local=" ++ localFlow ++ ", llm=" ++ llmFlow ++ ")"
          source := "hybrid+corrected" }

/-- The `cancel_words` list of `_handle_emergency`. -/
def emergencyCancelWords : List String :=
  ["falsa alarma", "ya estoy bien", "no llames", "no llames a nadie",
   "no es necesario", "todo bien"]

/-- The `confirm_words` list of `_handle_emergency`. -/
def emergencyConfirmWords : List String :=
  ["llama", "llamar", "contacta", "contactar", "ambulancia",
   "urgencias", "emergencia", "911", "112"]

/-- `ConversationOrchestrator._handle_emergency(text, decision)`.  The Python
method assigns to `decision.next_prompt` / `decision.reason` on the object it
was given and returns the same object; the embedding returns the record with
those two fields replaced. -/
def handleEmergency (text : String) (decision : FlowDecision) : FlowDecision :=
  if emergencyCancelWords.any (fun cw => pyIn cw (pyLower text)) then
    { decision with
      next_prompt := some "Entendido, cancelo la alerta. Si vuelves a sentirte mal, avisa de inmediato."
      reason := "emergencia_cancel" }
  else if emergencyConfirmWords.any (fun cw => pyIn cw (pyLower text)) then
    { decision with
      next_prompt := some "Procedo a avisar a tu contacto de emergencia o servicios de urgencia. Confirmas?"
      reason := "emergencia_confirm" }
  else
    { decision with
      next_prompt := some "Es una emergencia? Llamo a tu contacto de emergencia o a servicios de urgencia."
      reason := "emergencia_check" }

/-! ## `FlowAssistant.suggest`

The LLM call itself is I/O; what the method guarantees is decided by its
decoding code.  `LLMOutcome` is the observable outcome of the call:
`failure` covers a disabled-at-call exception, timeout, transport error or a
reply that is not valid JSON (every such case lands in the `except` block and
returns `None`); `reply` carries the fields read from the parsed JSON
(`data.get("flow", "")`, `data.get("next_prompt")`, `data.get("corrected",
False)`). -/

inductive LLMOutcome where
  | failure
  | reply (flow : String) (next_prompt : Option String) (corrected : Bool)
deriving Repr, DecidableEq

/-- `FlowAssistant.suggest(...)` as a function of the assistant's `enabled`
flag and the LLM call outcome: `str(data.get("flow", "")).strip().lower()`
must be in `ALLOWED_FLOWS`, otherwise the result is absent. -/
def suggest (enabled : Bool) (outcome : LLMOutcome) : Option FlowDecision :=
  if enabled = false then none
  else
    match outcome with
    | .failure => none
    | .reply rawFlow nextPrompt corrected =>
        if allowedFlows.contains (pyLower (pyStrip rawFlow)) = false then none
        else
          some { flow := pyLower (pyStrip rawFlow)
                 next_prompt := nextPrompt
                 reason := "llm_validated (corrected=" ++ (if corrected then "True" else "False") ++ ")"
                 source := "llm" }

/-! ## Persistence model (`repositories/db_models.py` + `repository.py`)

Rows carry the columns declared in `db_models.py`.  Note that the `Reminder`
and `EmergencyEvent` tables declare **no** `session_id` column even though
`repository.py` tries to filter on one; the embedding reproduces the runtime
consequences of that drift where the orchestrator hits them. -/

/-- `REMINDER_STATUSES`. -/
def reminderStatuses : List String := ["draft", "confirmed", "cancelled", "done"]

/-- `EMERGENCY_STATUSES`. -/
def emergencyStatuses : List String :=
  ["detected", "confirming", "escalated", "cancelled", "resolved"]

/-- A row of the `reminder` table (`db_models.Reminder`). -/
structure ReminderRec where
  id : Nat
  device_id : String
  title : Option String
  due_at : Option Int
  timezone : Option String
  status : String
  created_at : Nat
  updated_at : Nat
deriving Repr, DecidableEq

/-- A row of the `emergencyevent` table (`db_models.EmergencyEvent`). -/
structure EmergencyRec where
  id : Nat
  device_id : String
  status : String
  contact_name : Option String
  reason : Option String
  action : Option String
  created_at : Nat
  resolved_at : Option Nat
deriving Repr, DecidableEq

/-- The record store.  Rows are kept in creation order; `clock` supplies both
fresh ids (for `uuid4()`) and strictly increasing `created_at` stamps (for
`_now()`), so `ORDER BY created_at DESC` is reversal of the list. -/
structure DB where
  reminders : List ReminderRec
  events : List EmergencyRec
  clock : Nat
deriving Repr, DecidableEq

/-- The empty store. -/
def dbEmpty : DB := { reminders := [], events := [], clock := 0 }

/-- `repository.create_reminder(...)` (the five parameters the function
actually accepts).  Returns `none` for an invalid status (`ValueError`). -/
def createReminder (db : DB) (device : String) (title : Option String)
    (due : Option Int) (tz : Option String) (status : String) : Option (Nat × DB) :=
  if reminderStatuses.contains status = false then none
  else
    some (db.clock,
      { db with
        reminders := db.reminders ++
          [{ id := db.clock, device_id := device, title := title, due_at := due,
             timezone := tz, status := status, created_at := db.clock, updated_at := db.clock }]
        clock := db.clock + 1 })

/-- `repository.update_reminder_status(reminder_id, status)`.  Returns `none`
for an invalid status (`ValueError`); a missing row is a silent no-op
(`return False`). -/
def updateReminderStatus (db : DB) (rid : Nat) (status : String) : Option DB :=
  if reminderStatuses.contains status = false then none
  else
    some { db with
      reminders := db.reminders.map (fun r =>
        if r.id = rid then { r with status := status, updated_at := db.clock } else r) }

/-- `repository.find_similar_reminder` with no session filter (the
`session_id`-truthy branch raises `AttributeError` because the table has no
such column; the orchestrator-side wrapper models that).  Candidates are the
device's rows with a matching title (skipped for an empty title), newest
first; with a due time, the newest candidate within the window wins, else the
newest candidate overall. -/
def findSimilarReminder (db : DB) (device : String) (title : String)
    (due : Option Int) (windowHours : Int) : Option ReminderRec :=
  let base := db.reminders.filter (fun r => r.device_id == device)
  let withTitle := if title = "" then base else base.filter (fun r => r.title == some title)
  let candidates := withTitle.reverse
  match due with
  | some d =>
      match candidates.find? (fun r =>
        match r.due_at with
        | some rd => decide (((rd - d).natAbs : Int) ≤ windowHours * 3600)
        | none => false) with
      | some r => some r
      | none => candidates.head?
  | none => candidates.head?

/-- `repository.cleanup_reminder_duplicates`: cancel every row of the device
with exactly the same title and due time, other than `keep_id`; a missing
title/due time makes it a no-op. -/
def cleanupReminderDuplicates (db : DB) (device : String) (title : String)
    (due : Option Int) (keepId : Nat) : DB :=
  if title = "" then db
  else
    match due with
    | none => db
    | some d =>
        { db with
          reminders := db.reminders.map (fun r =>
            if r.device_id = device ∧ r.title = some title ∧ r.due_at = some d ∧ r.id ≠ keepId
            then { r with status := "cancelled", updated_at := db.clock }
            else r) }

/-- The row built by `repository.create_emergency_event`. -/
def newEmergencyEvent (db : DB) (device : String) (status : String)
    (reason : Option String) (action : Option String) (contactName : Option String) :
    EmergencyRec :=
  { id := db.clock, device_id := device, status := status, contact_name := contactName,
    reason := reason, action := action, created_at := db.clock, resolved_at := none }

/-- `repository.create_emergency_event(...)`.  Returns `none` for an invalid
status (`ValueError`).  The `session_id`, `meta` and `source_message_id`
arguments have no column in `db_models.EmergencyEvent` and are dropped (the
SQLModel table constructor does not validate extra fields). -/
def createEmergencyEvent (db : DB) (device : String) (status : String)
    (reason : Option String) (action : Option String) (contactName : Option String) :
    Option (Nat × DB) :=
  if emergencyStatuses.contains status = false then none
  else
    some (db.clock,
      { db with
        events := db.events ++ [newEmergencyEvent db device status reason action contactName]
        clock := db.clock + 1 })

/-- The per-row effect of `repository.update_emergency_status` (rows with a
different id are untouched): the status is replaced, the action only when one
is given (truthy), and `resolved_at` is stamped on entering a terminal
status. -/
def applyEmergencyUpdate (now eid : Nat) (status : String) (action : Option String)
    (e : EmergencyRec) : EmergencyRec :=
  if e.id = eid then
    { e with
      status := status
      action := if optTruthy action then action else e.action
      resolved_at := if status = "resolved" ∨ status = "cancelled"
                     then some now else e.resolved_at }
  else e

def updateEmergencyStatus (db : DB) (eid : Nat) (status : String)
    (action : Option String) : Option DB :=
  if emergencyStatuses.contains status = false then none
  else
    some { db with
      events := db.events.map (applyEmergencyUpdate db.clock eid status action) }

/-- Whether an emergency event is *open* (`status.notin_(["resolved",
"cancelled"])`). -/
def isOpenEvent (e : EmergencyRec) : Bool :=
  !(e.status = "resolved") && !(e.status = "cancelled")

/-- `repository.get_latest_open_emergency(device_id)` with no session filter
(as with reminders, a truthy `session_id` raises `AttributeError` at query
build time, handled by the caller-side wrapper): the newest open event of the
device. -/
def getLatestOpenEmergency (db : DB) (device : String) : Option EmergencyRec :=
  (db.events.filter (fun e => e.device_id == device && isOpenEvent e)).getLast?

/-! ## `ConversationOrchestrator.process` -/

/-- The device-profile columns the orchestrator reads
(`dev.contact_name`, `dev.contact_phone`). -/
structure DeviceRec where
  contact_name : Option String
  contact_phone : Option String
deriving Repr, DecidableEq

/-- One dict produced by `extract_reminders`
(`{"title": ..., "due_at": ..., "timezone": ...}`). -/
structure RemCandidate where
  title : Option String
  due_at : Option Int
  timezone : Option String
deriving Repr, DecidableEq

/-- Everything `process` consumes for one turn.  The classifier outputs, the
device profile, the advisory decision, the extractor output and the
`generate_reply` result are inputs of the embedding: they are produced by
external models, the database read, and the LLM, all of which `process`
treats as opaque values. -/
structure ProcInput where
  text : String
  device_id : String
  session_id : Option String
  gate : GateVerdict
  intent : IntentResult
  entities : List Entity
  llm : Option FlowDecision
  device : Option DeviceRec
  extracted : List RemCandidate
  genReply : String × String
deriving Repr, DecidableEq

/-- The fields of the dict returned by `process` that the claims are about
(classifier echoes and the timing counter are omitted). -/
structure ProcResult where
  reply : String
  decoder : String
  emergency : Bool
  gate_reason : String
  flow : String
  next_prompt : Option String
  flow_source : String
  flow_reason : String
  reminder_ids : List Nat
  emergency_event_id : Option Nat
deriving Repr, DecidableEq

/-- The reminder `status_map` of `process` followed by the `_is_confirm`
override (`target_status = "confirmed"`). -/
def reminderTargetStatus (reason : String) (text : String) : String :=
  let target :=
    if reason = "recordatorio_cancel" then "cancelled"
    else if reason = "recordatorio_confirm" then "draft"
    else if reason = "recordatorio_pedir_hora" then "draft"
    else if reason = "recordatorio_pedir_contenido" then "draft"
    else if reason = "intent_recordatorio" then "draft"
    else if reason = "keyword_recordatorio" then "draft"
    else "draft"
  if isConfirm text then "confirmed" else target

/-- The emergency `status_map` of `process` (`status_map.get(decision.reason,
"detected")`). -/
def emergencyTargetStatus (reason : String) : String :=
  if reason = "emergencia_cancel" then "cancelled"
  else if reason = "emergencia_confirm" then "escalated"
  else if reason = "emergencia_check" then "confirming"
  else if reason = "emergencia_contacto" then "confirming"
  else if reason = "emergencia_servicios" then "confirming"
  else if reason = "gate_emergency" then "detected"
  else if reason = "intent_emergency" then "detected"
  else "detected"

/-- The emergency refinement block of `process` (contact lookup, prompt and
reason overwrite, then `_handle_emergency`).  In Python the block assigns to
the merged decision's fields; the embedding returns the resulting decision
together with `emergency_action` and `emergency_contact_name`. -/
def deviceContactName : Option DeviceRec → Option String
  | some dev => dev.contact_name
  | none => none

def deviceContactPhone : Option DeviceRec → Option String
  | some dev => dev.contact_phone
  | none => none

/-- `emergency_contact_name or 'contacto'` (Python `or`: `None` and `""` fall
through to the default). -/
def contactShown : Option String → String
  | some n => if n = "" then "contacto" else n
  | none => "contacto"

def refineEmergency (text : String) (device : Option DeviceRec) (d : FlowDecision) :
    FlowDecision × Option String × Option String :=
  if optTruthy (deviceContactPhone device) then
    (handleEmergency text
      { d with
        next_prompt := some ("Emergencia detectada. Llamo a tu contacto de emergencia ("
          ++ contactShown (deviceContactName device) ++ " al "
          ++ (deviceContactPhone device).getD "" ++ ")?")
        reason := "emergencia_contacto" },
     some "contact_family", deviceContactName device)
  else
    (handleEmergency text
      { d with
        next_prompt := some "Emergencia detectada. Llamo a servicios de emergencia?"
        reason := "emergencia_servicios" },
     some "call_services", deviceContactName device)

/-- The reminder refinement block of `process` (cancel phrasing, else the
slot-filling prompts).  As with the emergency block, Python mutates the
merged decision's `next_prompt`/`reason` fields in place. -/
def refineReminder (text : String) (d : FlowDecision) : FlowDecision :=
  if isCancel text then
    { d with
      next_prompt := some "Entendido, cancelo el recordatorio. Te ayudo con algo mas?"
      reason := "recordatorio_cancel" }
  else
    if (reminderSlots text).has_content && (reminderSlots text).has_time then
      { d with
        next_prompt := some "Listo. Confirmo el recordatorio asi? Si no, dime cancelar."
        reason := "recordatorio_confirm" }
    else if (reminderSlots text).has_content && !(reminderSlots text).has_time then
      { d with
        next_prompt := some "Cuando debo recordartelo? (ej. hoy 5pm, manana 9:00)"
        reason := "recordatorio_pedir_hora" }
    else
      { d with
        next_prompt := some "Que debo recordar y cuando? (ej. tomar medicina a las 9am)"
        reason := "recordatorio_pedir_contenido" }

/-- `title = rem.get("title") or text` (Python `or`: `None` and `""` fall
through to the raw text). -/
def candidateTitle (text : String) : Option String → String
  | some t => if t = "" then text else t
  | none => text

/-- The per-candidate reminder upsert loop of `process`.  Two calls in the
loop do not match the signatures in `repository.py` and therefore raise, and
the surrounding `try/except` then abandons the rest of the block, keeping the
effects already committed:
* with a truthy `session_id`, `find_similar_reminder` touches
  `db_models.Reminder.session_id`, a column that does not exist
  (`AttributeError`);
* `repository.create_reminder` accepts none of the `session_id=`, `notes=`,
  `meta=`, `source_message_id=` keyword arguments `process` passes, so the
  create branch always raises `TypeError` and no row is ever created here. -/
def persistReminderLoop (device : String) (sessionTruthy : Bool) (target : String)
    (text : String) : DB → List Nat → List RemCandidate → DB × List Nat
  | db, acc, [] => (db, acc)
  | db, acc, rem :: rest =>
      if sessionTruthy then (db, acc)
      else
        match findSimilarReminder db device (candidateTitle text rem.title) rem.due_at 24 with
        | some existing =>
            match updateReminderStatus db existing.id target with
            | some db1 =>
                persistReminderLoop device sessionTruthy target text
                  (cleanupReminderDuplicates db1 device (candidateTitle text rem.title)
                    rem.due_at existing.id)
                  (acc ++ [existing.id]) rest
            | none => (db, acc)
        | none => (db, acc)

/-- The reminder persistence block of `process` (the `try` body for
`decision.flow == "recordatorio"`).  The cancel branch calls
`repository.get_latest_reminder(device_id, session_id=session_id)`, but that
function takes no `session_id` parameter: the call raises `TypeError`
unconditionally and nothing is persisted. -/
def persistReminders (db : DB) (device : String) (sessionTruthy : Bool)
    (target : String) (text : String) (extracted : List RemCandidate) : DB × List Nat :=
  let rems := if extracted.isEmpty
    then [{ title := some text, due_at := none, timezone := none }]
    else extracted
  if target = "cancelled" then (db, [])
  else persistReminderLoop device sessionTruthy target text db [] rems

/-- The emergency persistence block of `process` (the `try` body for
`decision.flow == "emergencia"` on the normal path).  With a truthy
`session_id`, `get_latest_open_emergency` touches
`db_models.EmergencyEvent.session_id`, a column that does not exist: the
`AttributeError` is caught by the surrounding handler and nothing is
persisted. -/
def persistEmergency (db : DB) (device : String) (sessionTruthy : Bool)
    (target : String) (reason : String) (action : Option String)
    (contactName : Option String) : DB × Option Nat :=
  if sessionTruthy then (db, none)
  else
    match getLatestOpenEmergency db device with
    | some existing =>
        match updateEmergencyStatus db existing.id target action with
        | some db1 => (db1, some existing.id)
        | none => (db, none)
    | none =>
        match createEmergencyEvent db device target (some reason) action contactName with
        | some (eid, db1) => (db1, some eid)
        | none => (db, none)

/-- The merged decision of a turn: `decide_flow_local` combined with the
advisory decision by `merge_flow_decisions` (`process`, normal path). -/
def mergedDecision (i : ProcInput) : FlowDecision :=
  mergeFlowDecisions (decideFlowLocal i.text i.intent i.gate i.entities) i.llm i.intent.score

/-- The sub-flow refinement step of `process` applied to the merged decision,
together with `emergency_action` and `emergency_contact_name` (both `None`
outside the emergency flow). -/
def refinedTriple (i : ProcInput) : FlowDecision × Option String × Option String :=
  if (mergedDecision i).flow = "emergencia" then
    refineEmergency i.text i.device (mergedDecision i)
  else if (mergedDecision i).flow = "recordatorio" then
    (refineReminder i.text (mergedDecision i), none, none)
  else (mergedDecision i, none, none)

/-- The `Persist flows for reminders/emergencies` block of `process`: the new
store, the collected `reminder_ids` and the `emergency_event_id`. -/
def persistStep (i : ProcInput) (db : DB) (decision : FlowDecision)
    (emergencyAction emergencyContactName : Option String) :
    DB × List Nat × Option Nat :=
  if decision.flow = "recordatorio" then
    let target := reminderTargetStatus decision.reason i.text
    let p := persistReminders db i.device_id (optTruthy i.session_id) target i.text i.extracted
    (p.1, p.2, (none : Option Nat))
  else if decision.flow = "emergencia" then
    let target := emergencyTargetStatus decision.reason
    let p := persistEmergency db i.device_id (optTruthy i.session_id) target decision.reason
      emergencyAction emergencyContactName
    (p.1, ([] : List Nat), p.2)
  else (db, ([] : List Nat), (none : Option Nat))

/-- The normal path of `process` (safety gate allowed the text): local
decision, merge with the advisory decision, sub-flow refinement, reply
selection, persistence. -/
def processNormal (i : ProcInput) (db : DB) : ProcResult × DB :=
  let decision := (refinedTriple i).1
  let replyPair :=
    if decision.flow = "emergencia" then ("Protocolo de emergencia activado.", "emergency_protocol")
    else i.genReply
  let persisted := persistStep i db decision (refinedTriple i).2.1 (refinedTriple i).2.2
  ({ reply := replyPair.1
     decoder := replyPair.2
     emergency := decision.flow = "emergencia" || i.gate.emergency
     gate_reason := i.gate.reason
     flow := decision.flow
     next_prompt := decision.next_prompt
     flow_source := (mergedDecision i).source
     flow_reason := decision.reason
     reminder_ids := persisted.2.1
     emergency_event_id := persisted.2.2 }, persisted.1)

/-- `ConversationOrchestrator.process(text, device_id=..., session_id=...,
source_message_id=...)`.  The first branch is the gate short-circuit: a
denied verdict with the emergency flag forces the emergency flow, builds the
reply with `predictors.generate_reply`, and creates an emergency event
unconditionally; a denied verdict without the flag returns the blocked
response without touching the store. -/
def process (i : ProcInput) (db : DB) : ProcResult × DB :=
  if !i.gate.allow then
    if i.gate.emergency then
      let created := createEmergencyEvent db i.device_id "detected" (some "gate_emergency")
        none none
      let db1 := match created with
        | some (_, d) => d
        | none => db
      let eid := match created with
        | some (e, _) => some e
        | none => none
      ({ reply := i.genReply.1
         decoder := i.genReply.2
         emergency := true
         gate_reason := i.gate.reason
         flow := "emergencia"
         next_prompt := some "Emergencia detectada. Llamo a tu contacto de emergencia o a servicios de urgencia?"
         flow_source := "gate"
         flow_reason := "gate_emergency"
         reminder_ids := []
         emergency_event_id := eid }, db1)
    else
      ({ reply := "Mensaje bloqueado por seguridad. Si necesitas ayuda urgente, contacta a un servicio de emergencia."
         decoder := "gate"
         emergency := i.gate.emergency
         gate_reason := i.gate.reason
         flow := "bloqueado"
         next_prompt := none
         flow_source := "gate"
         flow_reason := "gate_block"
         reminder_ids := []
         emergency_event_id := none }, db)
  else processNormal i db

/-! ## Derived notions used by the statements -/

/-- Number of open emergency events of a device. -/
def openCount (db : DB) (device : String) : Nat :=
  db.events.countP (fun e => e.device_id == device && isOpenEvent e)

/-- At most one open emergency event per device (the event table carries no
session column, so the per-(device, session) reading of the invariant
degenerates to this). -/
def OpenAtMostOne (db : DB) : Prop :=
  ∀ device, openCount db device ≤ 1

/-- Well-formedness of the store maintained by the embedding: event row ids
are distinct and below the id counter. -/
def EventIdsWF (db : DB) : Prop :=
  (db.events.map EmergencyRec.id).Nodup ∧ ∀ e ∈ db.events, e.id < db.clock

/-! ## Concrete turns used in the claim statements -/

/-- A turn with the gate emergency flag set: a turn
whose gate verdict is denied-with-emergency, with an advisory decision that
disagrees, still ends in the `emergencia` flow. -/
def c1Advisory : FlowDecision :=
  { flow := "acompanamiento_social", next_prompt := none,
    reason := "llm_validated (corrected=True)", source := "llm" }

def c1Input : ProcInput :=
  { text := "me siento muy mal", device_id := "dev-c1", session_id := none,
    gate := { allow := true, emergency := true, reason := "emergencia detectada" },
    intent := { label := some "saludo", score := 1 },
    entities := [], llm := some c1Advisory,
    device := none, extracted := [],
    genReply := ("hola", "openai") }

/-- A turn hitting the gate short-circuit path (denied verdict with the
emergency flag): `process` creates an emergency event unconditionally there. -/
def c2Input : ProcInput :=
  { text := "ayuda urgente", device_id := "dev-c2", session_id := none,
    gate := { allow := false, emergency := true, reason := "emergencia detectada" },
    intent := { label := some "emergencia_medica", score := 1 },
    entities := [], llm := none, device := none, extracted := [],
    genReply := ("voy a ayudarte", "openai") }

/-- A reminder-flow turn for a device with no reminder rows: intent
`recordatorio` with full confidence, one extracted candidate. -/
def c3Input : ProcInput :=
  { text := "recordar tomar medicina manana", device_id := "dev-c3", session_id := none,
    gate := { allow := true, emergency := false, reason := "gate-bypass" },
    intent := { label := some "recordatorio", score := 1 },
    entities := [], llm := none, device := none,
    extracted := [{ title := some "tomar medicina", due_at := some 32400, timezone := some "Europe/Madrid" }],
    genReply := ("listo", "mock") }

/-- A gate short-circuit emergency turn whose `generate_reply` call produces
free text with the `openai` decoder tag. -/
def c4Input : ProcInput :=
  { text := "no puedo respirar", device_id := "dev-c4", session_id := none,
    gate := { allow := false, emergency := true, reason := "emergencia detectada" },
    intent := { label := some "emergencia_medica", score := 1 },
    entities := [], llm := none, device := none, extracted := [],
    genReply := ("Cuidate mucho, estoy contigo.", "openai") }

/-- A normal-path emergency turn (gate allowed, emergency flagged). -/
def c4WitnessInput : ProcInput :=
  { text := "me cai y estoy sangrando", device_id := "dev-c4w", session_id := none,
    gate := { allow := true, emergency := true, reason := "emergencia detectada" },
    intent := { label := some "emergencia_medica", score := 1 },
    entities := [], llm := none, device := none, extracted := [],
    genReply := ("texto libre", "openai") }

def c6Local : FlowDecision :=
  { flow := "consulta_informacion",
    next_prompt := some "Claro, dime que informacion necesitas y te apoyo.",
    reason := "intent_consulta", source := "local" }

def c6Llm : FlowDecision :=
  { flow := "consulta_informacion", next_prompt := some "Te escucho.",
    reason := "llm_validated (corrected=False)", source := "llm" }

/-- A merged decision as it reaches the refinement step on an emergency turn. -/
def c8Merged : FlowDecision :=
  { flow := "emergencia",
    next_prompt := some "Emergencia detectada. Llamo a tu contacto de emergencia o a servicios de urgencia?",
    reason := "gate_emergency", source := "hybrid+safety" }

/-- The decision `suggest` decodes from a shouted `" EMERGENCIA "` reply. -/
def c9Decoded : FlowDecision :=
  { flow := "emergencia", next_prompt := none,
    reason := "llm_validated (corrected=False)", source := "llm" }

def c9Local : FlowDecision :=
  { flow := "acompanamiento_social", next_prompt := none,
    reason := "intent_acompanamiento", source := "local" }

/-- A normal-path emergency turn applied to the empty store. -/
def c2WitnessInput : ProcInput :=
  { text := "me siento mal, ayuda", device_id := "dev-c2w", session_id := none,
    gate := { allow := true, emergency := true, reason := "emergencia" },
    intent := { label := some "emergencia_medica", score := 1 },
    entities := [], llm := none, device := none, extracted := [],
    genReply := ("texto", "openai") }

/-! ## Helper lemmas -/

theorem decideFlowLocal_flow_of_gate (text : String) (intent : IntentResult)
    (gate : GateVerdict) (es : List Entity) (h : gate.emergency = true) :
    (decideFlowLocal text intent gate es).flow = "emergencia" := by
  simp [decideFlowLocal, h]

theorem mergeFlowDecisions_flow_of_emergencia (localDecision : FlowDecision)
    (llm : Option FlowDecision) (s : ℚ) (h : localDecision.flow = "emergencia") :
    (mergeFlowDecisions localDecision llm s).flow = "emergencia" := by
  cases llm with
  | none => simpa [mergeFlowDecisions] using h
  | some l =>
      unfold mergeFlowDecisions
      dsimp only
      by_cases h1 : localDecision.flow = l.flow
      · rw [if_pos h1]; exact h
      · rw [if_neg h1, if_pos (Or.inl h)]

theorem handleEmergency_flow_source (text : String) (d : FlowDecision) :
    (handleEmergency text d).flow = d.flow ∧ (handleEmergency text d).source = d.source := by
  unfold handleEmergency
  split_ifs <;> exact ⟨rfl, rfl⟩

theorem refineEmergency_flow_source (text : String) (dev : Option DeviceRec)
    (d : FlowDecision) :
    (refineEmergency text dev d).1.flow = d.flow ∧
      (refineEmergency text dev d).1.source = d.source := by
  unfold refineEmergency
  split_ifs <;> exact handleEmergency_flow_source text _

theorem refineReminder_flow_source (text : String) (d : FlowDecision) :
    (refineReminder text d).flow = d.flow ∧ (refineReminder text d).source = d.source := by
  unfold refineReminder
  split_ifs <;> exact ⟨rfl, rfl⟩

theorem refinedTriple_flow (i : ProcInput) :
    (refinedTriple i).1.flow = (mergedDecision i).flow := by
  unfold refinedTriple
  split
  · exact (refineEmergency_flow_source i.text i.device (mergedDecision i)).1
  · split
    · exact (refineReminder_flow_source i.text (mergedDecision i)).1
    · rfl

theorem processNormal_flow (i : ProcInput) (db : DB) :
    (processNormal i db).1.flow = (refinedTriple i).1.flow := rfl

theorem processNormal_db (i : ProcInput) (db : DB) :
    (processNormal i db).2 = (persistStep i db (refinedTriple i).1
      (refinedTriple i).2.1 (refinedTriple i).2.2).1 := rfl

/-! ## Claim C1 -/

/-- C1: for every turn in which the safety gate's verdict carries
`emergency=true`, the final flow returned by `process` is `emergencia` — on
the gate short-circuit path, via the local policy alone, and through every
branch of the merge policy, whatever the intent classification and whatever
the advisory decision. -/
theorem c1_gate_emergency_forces_emergencia (i : ProcInput) (db : DB)
    (h : i.gate.emergency = true) :
    (process i db).1.flow = "emergencia" := by
  by_cases ha : i.gate.allow
  · have hp : process i db = processNormal i db := by
      simp [process, ha]
    rw [hp, processNormal_flow, refinedTriple_flow]
    exact mergeFlowDecisions_flow_of_emergencia _ _ _
      (decideFlowLocal_flow_of_gate i.text i.intent i.gate i.entities h)
  · simp only [Bool.not_eq_true] at ha
    simp [process, ha, h]

theorem c1_witness : (process c1Input dbEmpty).1.flow = "emergencia" :=
  c1_gate_emergency_forces_emergencia c1Input dbEmpty rfl

/-! ## Claim C2 -/

/-- C2 counterexample: two consecutive emergency turns of the same device and
session (both on the gate short-circuit path) leave TWO open emergency events
in the store — the second turn does not update the existing open event. -/
theorem c2_counterexample :
    openCount (process c2Input (process c2Input dbEmpty).2).2 "dev-c2" = 2 := by
  decide

/-! ## Claim C3 -/

/-- C3 evaluation: the claim's scenario — the same (title, due_at) reminder
submitted twice — leaves the reminder table EMPTY, not with one active
record.  `process`'s create branch calls `repository.create_reminder` with
`session_id`/`notes`/`meta`/`source_message_id` keyword arguments the function
does not accept, so the call raises `TypeError` (swallowed by the persistence
handler) on every turn and no reminder row is ever created by `process`. -/
theorem c3_reminder_upsert_never_creates :
    (process c3Input dbEmpty).1.flow = "recordatorio" ∧
    (process c3Input dbEmpty).2.reminders = [] ∧
    (process c3Input (process c3Input dbEmpty).2).2.reminders = [] ∧
    (process c3Input dbEmpty).1.reminder_ids = [] := by
  decide

/-! ## Claim C4 -/

/-- C4 counterexample: a turn whose final flow is `emergencia` (the gate
short-circuit path) whose reply is the free text produced by
`predictors.generate_reply` (decoder tag `openai`), not the fixed protocol
acknowledgement. -/
theorem c4_counterexample :
    (process c4Input dbEmpty).1.flow = "emergencia" ∧
    (process c4Input dbEmpty).1.decoder = "openai" ∧
    (process c4Input dbEmpty).1.reply ≠ "Protocolo de emergencia activado." := by
  decide

/-- C4 amended: on the normal path (gate verdict allowed), every turn whose
final flow is `emergencia` gets the fixed protocol acknowledgement as reply
and the `emergency_protocol` decoder tag — `generate_reply` free text only
reaches an emergency turn through the gate short-circuit path. -/
theorem c4_amended (i : ProcInput) (db : DB) (ha : i.gate.allow = true)
    (hf : (process i db).1.flow = "emergencia") :
    (process i db).1.reply = "Protocolo de emergencia activado." ∧
    (process i db).1.decoder = "emergency_protocol" := by
  have hp : process i db = processNormal i db := by
    simp [process, ha]
  rw [hp] at hf ⊢
  have hd : (refinedTriple i).1.flow = "emergencia" := by
    rw [← processNormal_flow i db]; exact hf
  unfold processNormal
  dsimp only
  rw [if_pos hd]
  exact ⟨rfl, rfl⟩

theorem c4_witness :
    (process c4WitnessInput dbEmpty).1.reply = "Protocolo de emergencia activado." ∧
    (process c4WitnessInput dbEmpty).1.decoder = "emergency_protocol" :=
  c4_amended c4WitnessInput dbEmpty rfl (by decide)

/-! ## Claim C5 -/

/-- C5: `merge_flow_decisions` with an absent advisory decision is the
identity on the local decision — flow, next_prompt, reason and even the
source tag are returned unchanged. -/
theorem c5_merge_absent_identity (localDecision : FlowDecision) (s : ℚ) :
    mergeFlowDecisions localDecision none s = localDecision := rfl

/-! ## Claim C6 -/

/-- C6 counterexample: local and advisory decisions that agree on the same
flow merge into a decision whose source tag is NOT `merged_consensus` (the
code's literal tag is `hybrid+validated`). -/
theorem c6_counterexample :
    c6Llm.flow = c6Local.flow ∧
    (mergeFlowDecisions c6Local (some c6Llm) 0).source ≠ "merged_consensus" := by
  decide

/-- C6 amended: when the advisory decision agrees with the local decision on
the flow, the merged decision keeps that flow and the local prompt, appends
`+llm_validated` to the local reason, and carries the source tag
`hybrid+validated` (the code's literal for the spec's `merged_consensus`). -/
theorem c6_amended (localDecision llm : FlowDecision) (s : ℚ)
    (h : llm.flow = localDecision.flow) :
    mergeFlowDecisions localDecision (some llm) s =
      { flow := localDecision.flow, next_prompt := localDecision.next_prompt,
        reason := localDecision.reason ++ "+llm_validated", source := "hybrid+validated" } := by
  unfold mergeFlowDecisions
  dsimp only
  rw [if_pos h.symm]

theorem c6_witness :
    mergeFlowDecisions c6Local (some c6Llm) 0 =
      { flow := "consulta_informacion",
        next_prompt := some "Claro, dime que informacion necesitas y te apoyo.",
        reason := "intent_consulta+llm_validated", source := "hybrid+validated" } :=
  c6_amended c6Local c6Llm 0 rfl

/-! ## Claim C7 -/

/-- C7: `decide_flow_local` (total by construction) yields the reminder flow,
when no emergency rule fires, exactly for a `recordatorio` intent with
confidence ≥ 0.6 or a reminder keyword with intent confidence < 0.7 — so a
keyword with a confident (≥ 0.7) non-reminder classification does not yield
the reminder flow — and falls back to the companionship flow with the
`fallback_acompanamiento` reason when no rule matches. -/
theorem c7_decide_flow_local_reminder_rules (text : String) (intent : IntentResult)
    (gate : GateVerdict) (es : List Entity)
    (h1 : gate.emergency = false)
    (h2 : emergencyLabels.contains (effectiveLabel intent.label) = false) :
    ((decideFlowLocal text intent gate es).flow = "recordatorio" ↔
      ((effectiveLabel intent.label = "recordatorio" ∧ intent.score ≥ mkRat 6 10) ∨
        (keywordRecordatorio text = true ∧ intent.score < mkRat 7 10)))
    ∧ (¬(effectiveLabel intent.label = "recordatorio" ∧ intent.score ≥ mkRat 6 10) →
       ¬(keywordRecordatorio text = true ∧ intent.score < mkRat 7 10) →
       consultaLabels.contains (effectiveLabel intent.label) = false →
       acompLabels.contains (effectiveLabel intent.label) = false →
       decideFlowLocal text intent gate es =
         { flow := "acompanamiento_social",
           next_prompt := some "Estoy aqui para ayudarte. Como puedo apoyarte?",
           reason := "fallback_acompanamiento", source := "local" }) := by
  have hng : ¬((gate.emergency ||
      emergencyLabels.contains (effectiveLabel intent.label)) = true) := by
    rw [h1, h2]; exact Bool.false_ne_true
  unfold decideFlowLocal
  dsimp only
  rw [if_neg hng]
  constructor
  · by_cases hA : effectiveLabel intent.label = "recordatorio" ∧ intent.score ≥ mkRat 6 10
    · rw [if_pos hA]
      exact iff_of_true rfl (Or.inl hA)
    · rw [if_neg hA]
      by_cases hB : keywordRecordatorio text = true ∧ intent.score < mkRat 7 10
      · rw [if_pos hB]
        exact iff_of_true rfl (Or.inr hB)
      · rw [if_neg hB]
        have hr : ¬((effectiveLabel intent.label = "recordatorio" ∧ intent.score ≥ mkRat 6 10) ∨
            (keywordRecordatorio text = true ∧ intent.score < mkRat 7 10)) := by
          rintro (hc | hc)
          · exact hA hc
          · exact hB hc
        split_ifs <;> exact iff_of_false (by decide) hr
  · intro hA hB hC hD
    rw [if_neg hA, if_neg hB, if_neg (by rw [hC]; exact Bool.false_ne_true),
      if_neg (by rw [hD]; exact Bool.false_ne_true)]

theorem c7_witness :
    (decideFlowLocal "anotar la cita" { label := some "saludo", score := mkRat 1 2 }
      { allow := true, emergency := false, reason := "" } []).flow = "recordatorio" :=
  (c7_decide_flow_local_reminder_rules "anotar la cita"
      { label := some "saludo", score := mkRat 1 2 }
      { allow := true, emergency := false, reason := "" } [] rfl (by decide)).1.mpr
    (Or.inr ⟨by decide, by norm_num⟩)

/-! ## Claim C8 -/

/-- C8 counterexample: sub-flow refinement does not leave the merged
decision's fields unchanged — on an emergency turn both `reason` and
`next_prompt` of the decision are overwritten (in Python, by in-place
mutation of the very same `FlowDecision` object). -/
theorem c8_counterexample :
    (refineEmergency "me duele el pecho" none c8Merged).1.reason ≠ c8Merged.reason ∧
    (refineEmergency "me duele el pecho" none c8Merged).1.next_prompt ≠ c8Merged.next_prompt := by
  decide

/-- C8 amended: sub-flow refinement mutates the merged decision's
`next_prompt` and `reason` in place, but never changes its `flow` or its
`source`, so the flow/source trail does survive refinement. -/
theorem c8_amended (text : String) (dev : Option DeviceRec) (d : FlowDecision) :
    ((refineEmergency text dev d).1.flow = d.flow ∧
      (refineEmergency text dev d).1.source = d.source) ∧
    ((refineReminder text d).flow = d.flow ∧ (refineReminder text d).source = d.source) :=
  ⟨refineEmergency_flow_source text dev d, refineReminder_flow_source text d⟩

/-! ## Claim C9 -/

/-- C9: `FlowAssistant.suggest` either returns absent — and the merge then
proceeds with the local decision unchanged — or returns a decision whose flow
is in `ALLOWED_FLOWS`; a reply naming an unknown flow is treated as absent. -/
theorem c9_suggest_allowed_or_absent (enabled : Bool) (o : LLMOutcome)
    (localDecision : FlowDecision) (s : ℚ) :
    (suggest enabled o = none →
      mergeFlowDecisions localDecision (suggest enabled o) s = localDecision)
    ∧ (∀ d, suggest enabled o = some d → allowedFlows.contains d.flow = true) := by
  constructor
  · intro h
    rw [h]
    exact rfl
  · intro d hd
    by_cases he : enabled = false
    · rw [suggest.eq_def, if_pos he] at hd
      exact Option.noConfusion hd
    · rw [suggest.eq_def, if_neg he] at hd
      cases o with
      | failure => exact Option.noConfusion hd
      | reply rawFlow nextPrompt corrected =>
          dsimp only at hd
          by_cases hc : allowedFlows.contains (pyLower (pyStrip rawFlow)) = false
          · rw [if_pos hc] at hd
            exact Option.noConfusion hd
          · rw [if_neg hc] at hd
            rw [← Option.some.inj hd]
            exact eq_true_of_ne_false hc

theorem c9_witness :
    mergeFlowDecisions c9Local (suggest true (.reply "banana" none false)) 0 = c9Local ∧
    allowedFlows.contains c9Decoded.flow = true :=
  ⟨(c9_suggest_allowed_or_absent true (.reply "banana" none false) c9Local 0).1 (by decide),
   (c9_suggest_allowed_or_absent true (.reply " EMERGENCIA " none false) c9Local 0).2
     c9Decoded (by decide)⟩

/-! ## Claim C10 -/

/-- C10: any text whose lowercased form contains a confirm word as a
substring — also inside a longer word — makes `_is_confirm` true, and the
reminder flow's target persistence status is then upgraded to `confirmed`. -/
theorem c10_confirm_substring_upgrade (text w reason : String)
    (hw : w ∈ confirmWords) (hsub : pyIn w (pyLower text) = true) :
    isConfirm text = true ∧ reminderTargetStatus reason text = "confirmed" := by
  have hc : isConfirm text = true := by
    unfold isConfirm
    exact List.any_eq_true.mpr ⟨w, hw, hsub⟩
  refine ⟨hc, ?_⟩
  unfold reminderTargetStatus
  rw [if_pos hc]

/-- `"necesito una visita"` contains no standalone confirmation word, yet
`"si"` occurs inside `"necesito"` and `"visita"`, so the draft is upgraded. -/
theorem c10_witness :
    isConfirm "necesito una visita" = true ∧
    reminderTargetStatus "recordatorio_pedir_hora" "necesito una visita" = "confirmed" :=
  c10_confirm_substring_upgrade "necesito una visita" "si" "recordatorio_pedir_hora"
    (by decide) (by decide)

/-! ## Claim C2, amended: the invariant on the normal path -/

theorem mem_of_getLast?_eq_some {α : Type} {l : List α} {a : α}
    (h : l.getLast? = some a) : a ∈ l := by
  rcases List.mem_getLast?_eq_getLast (Option.mem_def.mpr h) with ⟨hne, ha⟩
  rw [ha]
  exact List.getLast_mem hne

theorem getLatestOpenEmergency_facts (db : DB) (dev : String) (e : EmergencyRec)
    (h : getLatestOpenEmergency db dev = some e) :
    e ∈ db.events ∧ (e.device_id == dev) = true ∧ isOpenEvent e = true := by
  unfold getLatestOpenEmergency at h
  have hm := List.mem_filter.mp (mem_of_getLast?_eq_some h)
  have hm2 := hm.2
  rw [Bool.and_eq_true] at hm2
  exact ⟨hm.1, hm2.1, hm2.2⟩

theorem getLatestOpenEmergency_none_count (db : DB) (dev : String)
    (h : getLatestOpenEmergency db dev = none) : openCount db dev = 0 := by
  unfold getLatestOpenEmergency at h
  unfold openCount
  rw [List.countP_eq_length_filter, List.getLast?_eq_none_iff.mp h]
  rfl

theorem applyEmergencyUpdate_id (now eid : Nat) (st : String) (act : Option String)
    (e : EmergencyRec) : (applyEmergencyUpdate now eid st act e).id = e.id := by
  unfold applyEmergencyUpdate
  split <;> rfl

theorem applyEmergencyUpdate_device (now eid : Nat) (st : String) (act : Option String)
    (e : EmergencyRec) :
    (applyEmergencyUpdate now eid st act e).device_id = e.device_id := by
  unfold applyEmergencyUpdate
  split <;> rfl

theorem updateEmergencyStatus_facts (db : DB) (eid : Nat) (st : String)
    (act : Option String) (db1 : DB) (h : updateEmergencyStatus db eid st act = some db1) :
    db1.events = db.events.map (applyEmergencyUpdate db.clock eid st act) ∧
      db1.clock = db.clock := by
  unfold updateEmergencyStatus at h
  by_cases hval : emergencyStatuses.contains st = false
  · rw [if_pos hval] at h
    exact Option.noConfusion h
  · rw [if_neg hval] at h
    rw [← Option.some.inj h]
    exact ⟨rfl, rfl⟩

theorem createEmergencyEvent_facts (db : DB) (dev st : String)
    (reason act cn : Option String) (eid : Nat) (db1 : DB)
    (h : createEmergencyEvent db dev st reason act cn = some (eid, db1)) :
    db1.events = db.events ++ [newEmergencyEvent db dev st reason act cn] ∧
      db1.clock = db.clock + 1 := by
  unfold createEmergencyEvent at h
  by_cases hval : emergencyStatuses.contains st = false
  · rw [if_pos hval] at h
    exact Option.noConfusion h
  · rw [if_neg hval] at h
    have hp := Option.some.inj h
    rw [Prod.mk.injEq] at hp
    rw [← hp.2]
    exact ⟨rfl, rfl⟩

theorem countP_map_le_of_pointwise {α : Type} (l : List α) (f : α → α) (p : α → Bool)
    (h : ∀ x ∈ l, p (f x) = true → p x = true) :
    (l.map f).countP p ≤ l.countP p := by
  rw [List.countP_map]
  exact List.countP_mono_left h

/-- The emergency persistence step of the normal path preserves the
at-most-one-open-event invariant and the id discipline, for every target
status: an existing open event is updated in place (openness can only be kept
or lost), and a fresh event is only created when the device has no open
event. -/
theorem persistEmergency_inv (db : DB) (dev : String) (st : Bool)
    (target reason : String) (action contactName : Option String)
    (hwf : EventIdsWF db) (hinv : OpenAtMostOne db) :
    OpenAtMostOne (persistEmergency db dev st target reason action contactName).1 ∧
      EventIdsWF (persistEmergency db dev st target reason action contactName).1 := by
  unfold persistEmergency
  by_cases hst : st = true
  · rw [if_pos hst]
    exact ⟨hinv, hwf⟩
  · rw [if_neg hst]
    cases hopen : getLatestOpenEmergency db dev with
    | some e =>
        dsimp only
        cases hupd : updateEmergencyStatus db e.id target action with
        | none => exact ⟨hinv, hwf⟩
        | some db1 =>
            dsimp only
            obtain ⟨hmem, hdev, hopenE⟩ := getLatestOpenEmergency_facts db dev e hopen
            obtain ⟨hev, hclock⟩ := updateEmergencyStatus_facts db e.id target action db1 hupd
            constructor
            · intro d
              unfold openCount
              rw [hev]
              refine le_trans (countP_map_le_of_pointwise db.events _ _ ?_) (hinv d)
              intro x hx hpx
              by_cases hid : x.id = e.id
              · have hxe : x = e := List.inj_on_of_nodup_map hwf.1 hx hmem hid
                subst hxe
                rw [Bool.and_eq_true] at hpx ⊢
                refine ⟨?_, hopenE⟩
                have hfirst := hpx.1
                rw [applyEmergencyUpdate_device] at hfirst
                exact hfirst
              · have hfx : applyEmergencyUpdate db.clock e.id target action x = x := by
                  unfold applyEmergencyUpdate
                  rw [if_neg hid]
                rw [hfx] at hpx
                exact hpx
            · constructor
              · rw [hev, List.map_map]
                have hids :
                    db.events.map (EmergencyRec.id ∘ applyEmergencyUpdate db.clock e.id target action)
                      = db.events.map EmergencyRec.id :=
                  List.map_congr_left
                    (fun x _ => applyEmergencyUpdate_id db.clock e.id target action x)
                rw [hids]
                exact hwf.1
              · intro ev hm
                rw [hev] at hm
                obtain ⟨x, hx, rfl⟩ := List.mem_map.mp hm
                rw [hclock, applyEmergencyUpdate_id]
                exact hwf.2 x hx
    | none =>
        dsimp only
        cases hcr : createEmergencyEvent db dev target (some reason) action contactName with
        | none => exact ⟨hinv, hwf⟩
        | some pr =>
            obtain ⟨eid, db1⟩ := pr
            dsimp only
            obtain ⟨hev, hclock⟩ :=
              createEmergencyEvent_facts db dev target (some reason) action contactName eid db1 hcr
            have hz := getLatestOpenEmergency_none_count db dev hopen
            unfold openCount at hz
            constructor
            · intro d
              unfold openCount
              rw [hev, List.countP_append]
              by_cases hd : dev = d
              · subst hd
                rw [hz]
                have hone := List.countP_le_length
                  (p := fun e => e.device_id == dev && isOpenEvent e)
                  (l := [newEmergencyEvent db dev target (some reason) action contactName])
                simpa using hone
              · have hnewp : ((newEmergencyEvent db dev target (some reason) action
                    contactName).device_id == d) = false := by
                  rw [beq_eq_false_iff_ne]
                  exact hd
                have hc1 : List.countP (fun e => e.device_id == d && isOpenEvent e)
                    [newEmergencyEvent db dev target (some reason) action contactName] = 0 := by
                  rw [List.countP_cons, List.countP_nil, hnewp]
                  simp
                rw [hc1]
                simpa using hinv d
            · constructor
              · rw [hev, List.map_append, List.nodup_append]
                refine ⟨hwf.1, List.nodup_singleton _, ?_⟩
                intro a ha hb
                obtain ⟨x, hx, rfl⟩ := List.mem_map.mp ha
                have hlt := hwf.2 x hx
                have hbid : x.id = db.clock := by simpa using hb
                omega
              · intro ev hm
                rw [hev] at hm
                rw [hclock]
                rcases List.mem_append.mp hm with hm1 | hm2
                · exact lt_trans (hwf.2 ev hm1) (Nat.lt_succ_self _)
                · have hev2 : ev = newEmergencyEvent db dev target (some reason) action
                      contactName := by simpa using hm2
                  rw [hev2]
                  exact Nat.lt_succ_self _

theorem updateReminderStatus_facts (db : DB) (rid : Nat) (st : String) (db1 : DB)
    (h : updateReminderStatus db rid st = some db1) :
    db1.events = db.events ∧ db1.clock = db.clock := by
  unfold updateReminderStatus at h
  by_cases hval : reminderStatuses.contains st = false
  · rw [if_pos hval] at h
    exact Option.noConfusion h
  · rw [if_neg hval] at h
    rw [← Option.some.inj h]
    exact ⟨rfl, rfl⟩

theorem cleanupReminderDuplicates_facts (db : DB) (dev t : String) (due : Option Int)
    (keep : Nat) :
    (cleanupReminderDuplicates db dev t due keep).events = db.events ∧
      (cleanupReminderDuplicates db dev t due keep).clock = db.clock := by
  cases due with
  | none =>
      unfold cleanupReminderDuplicates
      split_ifs <;> exact ⟨rfl, rfl⟩
  | some d =>
      unfold cleanupReminderDuplicates
      split_ifs <;> exact ⟨rfl, rfl⟩

theorem persistReminderLoop_facts (dev : String) (st : Bool) (tg tx : String) :
    ∀ (rems : List RemCandidate) (db : DB) (acc : List Nat),
      (persistReminderLoop dev st tg tx db acc rems).1.events = db.events ∧
        (persistReminderLoop dev st tg tx db acc rems).1.clock = db.clock := by
  intro rems
  induction rems with
  | nil => intro db acc; exact ⟨rfl, rfl⟩
  | cons rem rest ih =>
      intro db acc
      unfold persistReminderLoop
      by_cases hst : st = true
      · rw [if_pos hst]
        exact ⟨rfl, rfl⟩
      · rw [if_neg hst]
        cases hfind : findSimilarReminder db dev (candidateTitle tx rem.title) rem.due_at 24 with
        | none => exact ⟨rfl, rfl⟩
        | some existing =>
            dsimp only
            cases hupd : updateReminderStatus db existing.id tg with
            | none => exact ⟨rfl, rfl⟩
            | some db1 =>
                dsimp only
                have h1 := updateReminderStatus_facts db existing.id tg db1 hupd
                have h2 := cleanupReminderDuplicates_facts db1 dev
                  (candidateTitle tx rem.title) rem.due_at existing.id
                have h3 := ih (cleanupReminderDuplicates db1 dev
                  (candidateTitle tx rem.title) rem.due_at existing.id) (acc ++ [existing.id])
                exact ⟨by rw [h3.1, h2.1, h1.1], by rw [h3.2, h2.2, h1.2]⟩

theorem persistReminders_facts (db : DB) (dev : String) (st : Bool) (tg tx : String)
    (ex : List RemCandidate) :
    (persistReminders db dev st tg tx ex).1.events = db.events ∧
      (persistReminders db dev st tg tx ex).1.clock = db.clock := by
  unfold persistReminders
  split_ifs <;>
    first
      | exact ⟨rfl, rfl⟩
      | exact persistReminderLoop_facts dev st tg tx _ db []

theorem OpenAtMostOne_of_events_eq {db db1 : DB} (h : db1.events = db.events)
    (hinv : OpenAtMostOne db) : OpenAtMostOne db1 := by
  intro d
  unfold openCount
  rw [h]
  exact hinv d

theorem EventIdsWF_of_events_eq {db db1 : DB} (h : db1.events = db.events)
    (hc : db.clock ≤ db1.clock) (hwf : EventIdsWF db) : EventIdsWF db1 := by
  refine ⟨?_, ?_⟩
  · rw [h]
    exact hwf.1
  · intro e hm
    rw [h] at hm
    exact lt_of_lt_of_le (hwf.2 e hm) hc

/-- C2 amended: the at-most-one-open-event invariant holds for turns handled
by the normal path (gate verdict allowed): an existing open event of the
device is updated in place and a new event is only created when none is open.
On the gate short-circuit path an event is created unconditionally, so a
second gate-path emergency turn does produce a second open event.  The event table carries no session column, so the
invariant is per device; with a session id supplied, the open-event lookup
raises and the store is left unchanged. -/
theorem c2_amended (i : ProcInput) (db : DB) (hallow : i.gate.allow = true)
    (hwf : EventIdsWF db) (hinv : OpenAtMostOne db) :
    OpenAtMostOne (process i db).2 ∧ EventIdsWF (process i db).2 := by
  have hp : process i db = processNormal i db := by
    simp [process, hallow]
  rw [hp, processNormal_db]
  unfold persistStep
  split_ifs with h1 h2
  · have hf := persistReminders_facts db i.device_id (optTruthy i.session_id)
      (reminderTargetStatus (refinedTriple i).1.reason i.text) i.text i.extracted
    exact ⟨OpenAtMostOne_of_events_eq hf.1 hinv,
      EventIdsWF_of_events_eq hf.1 (le_of_eq hf.2.symm) hwf⟩
  · exact persistEmergency_inv db i.device_id (optTruthy i.session_id)
      (emergencyTargetStatus (refinedTriple i).1.reason) (refinedTriple i).1.reason
      (refinedTriple i).2.1 (refinedTriple i).2.2 hwf hinv
  · exact ⟨hinv, hwf⟩

theorem c2_witness :
    openCount (process c2WitnessInput dbEmpty).2 "dev-c2w" ≤ 1 :=
  (c2_amended c2WitnessInput dbEmpty rfl
      ⟨List.nodup_nil, fun e he => absurd he (List.not_mem_nil e)⟩
      (fun _ => Nat.zero_le 1)).1 "dev-c2w"

end SeniorAssist
